import Mathlib

/-!
Verification of the kiro coding-agent orchestrators.

The repository consists of two Python scripts:
  * `scripts/lisamarge.py` — the planning workflow (planner / reviewer cycle
    producing `PLAN_*` artifact files);
  * `scripts/homebart.py` — the execution workflow (worker / reviewer cycle
    per plan step producing `WORK_*` / `REVIEW_*` artifact files).

This file gives a shallow embedding of the state-detection functions, the
plan parser, the retry helper and the per-step execution loop, and proves
or refutes the specification claims about them.  File systems are modelled
as explicit records of the artifact files a single run can touch; agent
invocations are modelled through an oracle giving the outcome (and, on
success, the resulting artifact files) of each invocation.
-/

namespace KiroAgent

/-- Substring test: Python's `pat in s`.  True iff `pat` occurs contiguously
in `s` (always true for the empty pattern, as in Python). -/
def strContains (s pat : String) : Bool :=
  (List.range (s.toList.length + 1)).any fun i =>
    ((s.toList.drop i).take pat.toList.length) == pat.toList

/-- Python's `s.startswith(pat)` / "first line begins with". -/
def strBeginsWith (s pat : String) : Bool :=
  s.toList.take pat.toList.length == pat.toList

/-- First line of a file's content, as read by `f.readline()` in
`detect_step_state` (the trailing newline kept by `readline` is immaterial
to the substring tests performed on it, so we drop it). -/
def firstLine (s : String) : String :=
  ⟨s.toList.takeWhile (fun c => c ≠ '\n')⟩

/-! ## Step-state detection (`homebart.py`, `detect_step_state`, lines 162–214)

The artifact files of one step are `WORK_<plan>_step_<N>.md` and
`REVIEW_<plan>_step_<N>.md`; we record each as `Option String`
(`none` = the file does not exist, `some c` = it exists with content `c`). -/

/-- Artifact files of a single execution step. -/
structure StepFS where
  work : Option String
  review : Option String
deriving DecidableEq, Repr

/-- The five per-step states of the execution workflow. -/
inductive StepState
  | initial
  | work_done
  | review_done
  | approved
  | needs_rework
deriving DecidableEq, Repr

/-- Embedding of `detect_step_state` (homebart.py lines 189–214): if the
review file exists its first line is examined — containing "APPROVED" gives
`approved`, else containing "NEEDS REWORK" gives `needs_rework`, else
`review_done`; otherwise an existing work file gives `work_done`, and
nothing gives `initial`. -/
def detect_step_state (fs : StepFS) : StepState :=
  match fs.review with
  | some content =>
    if strContains (firstLine content) "APPROVED" then .approved
    else if strContains (firstLine content) "NEEDS REWORK" then .needs_rework
    else .review_done
  | none =>
    if fs.work.isSome then .work_done else .initial

/-! ## Planning-state detection (`lisamarge.py`, `detect_state`, lines 439–479)

Only existence of the four `PLAN_*` files matters, so they are Booleans. -/

/-- Existence of the four planning artifact files. -/
structure PlanFS where
  final : Bool
  stuck : Bool
  review : Bool
  draft : Bool
deriving DecidableEq, Repr

/-- The five states of the planning workflow. -/
inductive PlanState
  | initial
  | draft_ready
  | review_ready
  | stuck
  | done
deriving DecidableEq, Repr

/-- Embedding of `detect_state` (lisamarge.py lines 466–479), checking the
four plan files in priority order. -/
def detect_state (fs : PlanFS) : PlanState :=
  if fs.final then .done
  else if fs.stuck then .stuck
  else if fs.review then .review_ready
  else if fs.draft then .draft_ready
  else .initial

/-! ## Plan parsing (`homebart.py`, `parse_plan_file`, lines 217–293)

The regex pass over the plan text yields a list of matches, each a step
number together with the step's block text.  We embed the logic applied to
that match list: the duplicate-number check performed while iterating the
matches, the sequential-numbering check against `range(1, len+1)`, and the
final sort by step number.  (The regex extraction itself, the block
`strip()` and the success-criteria sub-extraction are text-level details
abstracted into the match list / block text.) -/

/-- A parsed plan step (homebart.py lines 276–280; the extracted
success-criteria field is derived text and is omitted). -/
structure Step where
  step_num : Nat
  description : String
deriving DecidableEq, Repr

/-- The iteration of homebart.py lines 264–280: walk the regex matches in
order, rejecting a step number already seen. -/
def collect_steps : List (Nat × String) → List Nat → Except String (List Step)
  | [], _ => .ok []
  | (n, block) :: rest, seen =>
    if n ∈ seen then
      .error ("Duplicate step number " ++ toString n ++ " found")
    else
      match collect_steps rest (n :: seen) with
      | .ok steps => .ok ({ step_num := n, description := block } :: steps)
      | .error e => .error e

/-- Embedding of `parse_plan_file` (homebart.py lines 241–293) applied to
the regex match list: duplicate check, then set equality of the found step
numbers with `{1, …, len}` (reporting the sorted missing numbers on
failure, as Python's `sorted(expected - actual)` does), then a sort by step
number.  An empty match list yields the empty step list, as in the code's
early return. -/
def parse_plan_file (ms : List (Nat × String)) : Except String (List Step) :=
  match collect_steps ms [] with
  | .error e => .error e
  | .ok steps =>
    let nums := steps.map Step.step_num
    let expected := List.range' 1 steps.length
    if expected.all (fun k => decide (k ∈ nums)) && nums.all (fun k => decide (k ∈ expected)) then
      .ok (List.insertionSort (fun a b => a.step_num ≤ b.step_num) steps)
    else
      .error ("Non-sequential step numbers: missing steps " ++
        toString (expected.filter (fun k => decide (k ∉ nums))))

/-- The step ordering used by the final sort is total. -/
instance : IsTotal Step (fun a b => a.step_num ≤ b.step_num) :=
  ⟨fun a b => Nat.le_total a.step_num b.step_num⟩

/-- The step ordering used by the final sort is transitive. -/
instance : IsTrans Step (fun a b => a.step_num ≤ b.step_num) :=
  ⟨fun _ _ _ h₁ h₂ => Nat.le_trans h₁ h₂⟩

/-- The execution workflow's precondition on the parsed plan (homebart.py
lines 510–512): an empty step list is fatal ("no work to do"). -/
def execution_steps_check (plan_file : String) (steps : List Step) :
    Except String (List Step) :=
  if steps.isEmpty then .error ("No steps found in " ++ plan_file)
  else .ok steps

/-! ## The retry helper (`retry_with_backoff`)

`lisamarge.py` lines 552–590 and `homebart.py` lines 457–494 define the
same retry loop (the lisamarge variant additionally forwards
final-attempt flags into the called function, which is absorbed here into
the attempt-indexed operation).  The operation is modelled as a function
from the attempt number (1-based) to `Except String α` — `.error e`
standing for a raised exception with message `e`.  The `on_attempt`
callback is modelled as a state transformer applied before each attempt,
and sleeps between attempts are counted. -/

/-- What the Python function returns: a `(True, result)` pair, a
`(False, message)` pair, or — when the loop body never runs — the implicit
`None`. -/
inductive RetryReturn (α : Type)
  | success (a : α)
  | failure (msg : String)
  | none_return
deriving DecidableEq, Repr

/-- The attempt loop of `retry_with_backoff`, iterating the attempt
numbers produced by `range(1, max_retries + 1)`: `st` is the `on_attempt`
callback state and `sleeps` counts the `time.sleep(2)` calls performed so
far.  Falling off the end of the list is the function's implicit `None`
return. -/
def retry_loop {α σ : Type} (f : Nat → Except String α) (onAtt : Nat → σ → σ)
    (max_retries : Int) :
    List Nat → σ → Nat → RetryReturn α × σ × Nat
  | [], st, sleeps => (.none_return, st, sleeps)
  | attempt :: rest, st, sleeps =>
    let st' := onAtt attempt st
    match f attempt with
    | .ok a => (.success a, st', sleeps)
    | .error e =>
      if (attempt : Int) < max_retries then
        retry_loop f onAtt max_retries rest st' (sleeps + 1)
      else
        (.failure e, st', sleeps)

/-- Embedding of `retry_with_backoff`: Python's `range(1, max_retries + 1)`
is the list `[1, …, max_retries]` — empty when `max_retries` (an `Int`, as
in Python) is zero or negative, in which case the loop body never runs. -/
def retry_with_backoff {α σ : Type} (f : Nat → Except String α)
    (max_retries : Int) (onAtt : Nat → σ → σ) (st : σ) :
    RetryReturn α × σ × Nat :=
  retry_loop f onAtt max_retries (List.range' 1 max_retries.toNat) st 0

/-- An `on_attempt` callback that merely counts its invocations. -/
def count_on_attempt : Nat → Nat → Nat := fun _ n => n + 1

/-! ## The planning workflow's review_ready branch
(`lisamarge.py`, `orchestrate_planning`, lines 974–1031)

Counters relevant to the branch and the effect of one detected
`review_ready` transition. -/

/-- The orchestration counters touched by the review_ready branch. -/
structure PlanCounters where
  planner_invocations : Nat
  revision_cycles : Nat
deriving DecidableEq, Repr

/-- The `on_attempt` callback of the review_ready branch (lisamarge.py
lines 992–998): every attempt increments `planner_invocations`; the first
attempt alone increments `revision_cycles` ("Only count as revision cycle
on first attempt"). -/
def review_ready_on_attempt (attempt : Nat) (c : PlanCounters) : PlanCounters :=
  { c with planner_invocations := c.planner_invocations + 1,
           revision_cycles :=
             if attempt = 1 then c.revision_cycles + 1 else c.revision_cycles }

/-- How a review_ready branch execution leaves the orchestration loop. -/
inductive BranchResult
  | continue_loop
  | exit_blocked
  | exit_failure
  | crash_type_error
deriving DecidableEq, Repr

/-- Embedding of the review_ready branch (lisamarge.py lines 974–1031): the
planner is invoked through `retry_with_backoff` with
`review_ready_on_attempt`; on success, lines 1028–1031 additionally
increment `planner_invocations` and `revision_cycles` once more; on
failure the run exits blocked (message mentions `PlannerBlockedError`) or
with failure; a `None` return from the retry helper would crash the tuple
unpacking with a `TypeError`. -/
def review_ready_branch (f : Nat → Except String Unit) (max_retries : Int)
    (c : PlanCounters) : BranchResult × PlanCounters :=
  match retry_with_backoff f max_retries review_ready_on_attempt c with
  | (.success _, c', _) =>
    (.continue_loop,
      { c' with planner_invocations := c'.planner_invocations + 1,
                revision_cycles := c'.revision_cycles + 1 })
  | (.failure msg, c', _) =>
    if strContains msg "PlannerBlockedError" then (.exit_blocked, c')
    else (.exit_failure, c')
  | (.none_return, c', _) => (.crash_type_error, c')

/-! ## The per-step execution loop
(`homebart.py`, `orchestrate_execution`, lines 516–647)

One iteration of the `while iteration < max_agent_invocations` loop for a
fixed step.  Each iteration performs at most one `invoke_kiro_cli` call,
whose outcome is supplied by an oracle indexed by the iteration number: on
success the agent leaves the step's artifact files in some state of its
choosing; a timeout raises `KiroCliError("... timed out ...")`, handled in
the loop by writing a fallback artifact; any other failure raises a
`KiroCliError` that propagates out of the loop (`raise`), ending the run
with outcome "failure".  Note that no invocation goes through
`retry_with_backoff` — the function is defined in homebart.py but never
called there. -/

/-- The two agent roles of the execution workflow. -/
inductive AgentRole
  | worker
  | reviewer
deriving DecidableEq, Repr

/-- Oracle outcome of one `invoke_kiro_cli` call: success (with the
artifact files the agent leaves behind), a timeout, or a non-zero-exit /
other process failure. -/
inductive AgentOutcome
  | ok (fs : StepFS)
  | timeout
  | agent_error
deriving DecidableEq, Repr

/-- Static context of one step's loop: the quantities interpolated into the
fallback artifacts. -/
structure StepCtx where
  plan_name : String
  step_num : Nat
  timeout : Nat
  desc : String
deriving DecidableEq, Repr

/-- Mutable state of the per-step loop: the artifact files, the iteration
counter, the last successfully completed role, and the summary counters.
`invoke_calls` counts `invoke_kiro_cli` calls (each loop iteration makes at
most one; there is no retry wrapper around them). -/
structure LoopState where
  fs : StepFS
  iteration : Nat
  last_role : Option AgentRole
  worker_invocations : Nat
  reviewer_invocations : Nat
  revision_cycles : Nat
  steps_completed : Nat
  invoke_calls : Nat
deriving DecidableEq, Repr

/-- The fallback WORK artifact written on worker timeout (homebart.py
lines 569–576). -/
def worker_timeout_feedback (timeoutSec : Nat) (desc : String) : String :=
  "Worker timed out after " ++ toString timeoutSec ++
  " seconds while working on this step.\n\n" ++
  "This likely means the step is too complex or unclear. The step should be:\n" ++
  "1. Broken down into smaller substeps, or\n" ++
  "2. Clarified with more specific requirements\n\n" ++
  "Original step description:\n" ++ desc

/-- The fallback REVIEW artifact written on reviewer timeout (homebart.py
lines 606–626); its first line is exactly "NEEDS REWORK". -/
def reviewer_timeout_feedback (timeoutSec : Nat) (plan_name : String)
    (step_num : Nat) : String :=
  "NEEDS REWORK\n\n" ++
  ("Reviewer timed out after " ++ toString timeoutSec ++
  " seconds while trying to verify your work.\n\n" ++
  "**ACTION REQUIRED:**\n" ++
  "1. Check your WORK_" ++ plan_name ++ "_step_" ++ toString step_num ++
  ".md file - does it clearly describe what you did?\n" ++
  "2. Verify the code actually works (run tests, check compilation)\n" ++
  "3. Make sure you completed ALL parts of the step description\n" ++
  "4. If the step is too complex, break it into smaller pieces\n\n" ++
  "**Common causes of reviewer timeout:**\n" ++
  "- WORK file is vague or missing details\n" ++
  "- Code has bugs that cause the reviewer to investigate deeply\n" ++
  "- Step requirements weren’t fully met\n" ++
  "- Tests are failing or not comprehensive\n\n" ++
  "**What to do:**\n" ++
  "- Re-read the step description carefully\n" ++
  "- Update your WORK file with specific details about what changed\n" ++
  "- Fix any bugs or incomplete work\n" ++
  "- Ensure all success criteria are met")

/-- The state the loop acts on in an iteration (homebart.py lines
529–535): when the last successfully completed role is the worker, the
state is forced to `work_done` ("always dispatch reviewer next") without
consulting the files; otherwise it is `detect_step_state`. -/
def loop_state_of (s : LoopState) : StepState :=
  if s.last_role = some AgentRole.worker then .work_done
  else detect_step_state s.fs

/-- The result of one loop iteration: continue, break with the step
approved, or an exception propagating out of `orchestrate_execution`. -/
inductive IterResult
  | next (s : LoopState)
  | step_approved (s : LoopState)
  | raised (s : LoopState)
deriving DecidableEq, Repr

/-- One iteration of the per-step loop (homebart.py lines 526–640),
given the invocation oracle `env` (indexed by the iteration number). -/
def step_iter (env : Nat → AgentOutcome) (ctx : StepCtx) (s0 : LoopState) :
    IterResult :=
  let s1 := { s0 with iteration := s0.iteration + 1 }
  let st := loop_state_of s1
  if st = .approved then
    .step_approved { s1 with steps_completed := s1.steps_completed + 1 }
  else if st = .initial ∨ st = .needs_rework then
    -- needs_rework additionally counts a revision cycle and reads the
    -- review file for worker feedback (the content only flows into the
    -- prompt; detection guarantees the file exists in this state)
    let s2 := if st = .needs_rework then
        { s1 with revision_cycles := s1.revision_cycles + 1 } else s1
    let s3 := { s2 with invoke_calls := s2.invoke_calls + 1 }
    match env s3.iteration with
    | .ok fs' =>
      .next { s3 with fs := fs',
                      worker_invocations := s3.worker_invocations + 1,
                      last_role := some .worker }
    | .timeout =>
      .next { s3 with
              fs := { s3.fs with
                      work := some (worker_timeout_feedback ctx.timeout ctx.desc) },
              worker_invocations := s3.worker_invocations + 1 }
    | .agent_error => .raised s3
  else if st = .work_done then
    match s1.fs.work with
    | none => .raised s1   -- reading the WORK file raises StateFileError
    | some _ =>
      let s3 := { s1 with invoke_calls := s1.invoke_calls + 1 }
      match env s3.iteration with
      | .ok fs' =>
        .next { s3 with fs := fs',
                        reviewer_invocations := s3.reviewer_invocations + 1,
                        last_role := some .reviewer }
      | .timeout =>
        .next { s3 with
                fs := { s3.fs with
                        review := some (reviewer_timeout_feedback ctx.timeout
                          ctx.plan_name ctx.step_num) },
                reviewer_invocations := s3.reviewer_invocations + 1 }
      | .agent_error => .raised s3
  else
    -- review_done: log a warning and loop again
    .next s1

/-- Projection used to follow a run: the state a `continue` carries. -/
def next_state : IterResult → Option LoopState
  | .next s => some s
  | _ => none

/-- The loop state at the start of a fresh step: no artifact files, no
completed role, all counters zero. -/
def initial_loop_state : LoopState :=
  { fs := { work := none, review := none }, iteration := 0, last_role := none,
    worker_invocations := 0, reviewer_invocations := 0, revision_cycles := 0,
    steps_completed := 0, invoke_calls := 0 }

/-- Concrete oracle for the reviewer-timeout scenario: the first invocation
(the worker, from `initial`) succeeds leaving a WORK file; every later
invocation (the reviewer) times out. -/
def reviewer_timeout_env : Nat → AgentOutcome
  | 1 => .ok { work := some "Work summary for step 1", review := none }
  | _ => .timeout

/-- Concrete step context for the counterexample runs. -/
def sample_ctx : StepCtx :=
  { plan_name := "feature", step_num := 1, timeout := 600,
    desc := "Implement the thing" }

/-! ## Terminal outcome tags

Each terminal exit that writes a summary artifact assigns a fixed outcome
tag.  Planning workflow (`lisamarge.py`): `"success"` (line 846),
`"stuck"` (line 879), `"blocked"` (lines 922, 1004), `"failure"` (lines
934, 962, 1016), `"max_iterations"` (line 1034).  Execution workflow
(`homebart.py`): `"max_agent_invocations"` (line 645), `"success"` (line
654), `"failure"` (line 661). -/

/-- The terminal exits of `orchestrate_planning` that write
`PLAN_SUMMARY_<name>.json`. -/
inductive PlanTerminal
  | plan_done
  | planner_stuck
  | planner_blocked
  | invocation_failure
  | max_invocations
deriving DecidableEq, Repr

/-- Outcome tag written at each planning terminal exit. -/
def planning_outcome : PlanTerminal → String
  | .plan_done => "success"
  | .planner_stuck => "stuck"
  | .planner_blocked => "blocked"
  | .invocation_failure => "failure"
  | .max_invocations => "max_iterations"

/-- The terminal exits of `orchestrate_execution` that write
`EXECUTION_SUMMARY_<name>.json`. -/
inductive ExecTerminal
  | all_steps_done
  | step_max_invocations
  | error_exit
deriving DecidableEq, Repr

/-- Outcome tag written at each execution terminal exit. -/
def execution_outcome : ExecTerminal → String
  | .all_steps_done => "success"
  | .step_max_invocations => "max_agent_invocations"
  | .error_exit => "failure"

/-! # Theorems -/

/-- The empty pattern occurs in every string. -/
theorem strContains_nil (s : String) : strContains s "" = true := by
  simp only [strContains, List.any_eq_true, List.mem_range]
  exact ⟨0, Nat.succ_pos _, by simp⟩

/-- A string contains any of its suffixes; in particular `a ++ b` contains
`b`. -/
theorem strContains_append_right (a b : String) : strContains (a ++ b) b = true := by
  have h : (a ++ b).toList = a.toList ++ b.toList := by
    simp [String.toList, String.data_append]
  simp only [strContains, List.any_eq_true, List.mem_range]
  refine ⟨a.toList.length, ?_, ?_⟩
  · rw [h]
    simp only [List.length_append]
    omega
  · rw [h, List.drop_left, List.take_length]
    exact beq_self_eq_true _

/-- C1: detect_step_state is a total deterministic function of the step's
artifact files, deciding by priority: review file present with first line
containing "APPROVED" → approved; else first line containing "NEEDS REWORK"
→ needs_rework; else review file present → review_done; else work file
present → work_done; else initial.  The first lines "APPROVED — looks
good", "NEEDS REWORK: fix X" and "Looks okay" yield approved, needs_rework
and review_done respectively. -/
theorem detect_step_state_priority :
    (∀ (fs : StepFS) (content : String), fs.review = some content →
      strContains (firstLine content) "APPROVED" = true →
      detect_step_state fs = StepState.approved) ∧
    (∀ (fs : StepFS) (content : String), fs.review = some content →
      strContains (firstLine content) "APPROVED" = false →
      strContains (firstLine content) "NEEDS REWORK" = true →
      detect_step_state fs = StepState.needs_rework) ∧
    (∀ (fs : StepFS) (content : String), fs.review = some content →
      strContains (firstLine content) "APPROVED" = false →
      strContains (firstLine content) "NEEDS REWORK" = false →
      detect_step_state fs = StepState.review_done) ∧
    (∀ (fs : StepFS) (w : String), fs.review = none → fs.work = some w →
      detect_step_state fs = StepState.work_done) ∧
    (∀ fs : StepFS, fs.review = none → fs.work = none →
      detect_step_state fs = StepState.initial) ∧
    (∀ w, detect_step_state ⟨w, some "APPROVED — looks good"⟩ = StepState.approved) ∧
    (∀ w, detect_step_state ⟨w, some "NEEDS REWORK: fix X"⟩ = StepState.needs_rework) ∧
    (∀ w, detect_step_state ⟨w, some "Looks okay"⟩ = StepState.review_done) := by
  refine ⟨?_, ?_, ?_, ?_, ?_, ?_, ?_, ?_⟩
  · intro fs content hrev happ
    simp [detect_step_state, hrev, happ]
  · intro fs content hrev happ hnr
    simp [detect_step_state, hrev, happ, hnr]
  · intro fs content hrev happ hnr
    simp [detect_step_state, hrev, happ, hnr]
  · intro fs w hrev hw
    simp [detect_step_state, hrev, hw]
  · intro fs hrev hw
    simp [detect_step_state, hrev, hw]
  · intro w
    simp [detect_step_state]
    decide
  · intro w
    simp [detect_step_state]
    decide
  · intro w
    simp [detect_step_state]
    decide

/-- Concrete instantiation of `detect_step_state_priority`: a review file
whose first line contains "APPROVED" is detected as approved. -/
theorem detect_step_state_priority_witness :
    detect_step_state ⟨none, some "APPROVED"⟩ = StepState.approved :=
  detect_step_state_priority.1 ⟨none, some "APPROVED"⟩ "APPROVED" rfl (by decide)

/-- C2: detect_state is a total deterministic function of plan-file
existence alone (hence independent of creation order or history), deciding
by priority: PLAN_FINAL → done; else PLAN_STUCK → stuck; else PLAN_REVIEW
→ review_ready; else PLAN_DRAFT → draft_ready; else initial. -/
theorem detect_state_priority :
    (∀ fs : PlanFS, fs.final = true → detect_state fs = PlanState.done) ∧
    (∀ fs : PlanFS, fs.final = false → fs.stuck = true →
      detect_state fs = PlanState.stuck) ∧
    (∀ fs : PlanFS, fs.final = false → fs.stuck = false → fs.review = true →
      detect_state fs = PlanState.review_ready) ∧
    (∀ fs : PlanFS, fs.final = false → fs.stuck = false → fs.review = false →
      fs.draft = true → detect_state fs = PlanState.draft_ready) ∧
    (∀ fs : PlanFS, fs.final = false → fs.stuck = false → fs.review = false →
      fs.draft = false → detect_state fs = PlanState.initial) := by
  refine ⟨?_, ?_, ?_, ?_, ?_⟩ <;> intro fs <;> intros <;>
    simp_all [detect_state]

/-- Concrete instantiation of `detect_state_priority`: with both PLAN_FINAL
and PLAN_DRAFT present the state is done. -/
theorem detect_state_priority_witness :
    detect_state ⟨true, false, false, true⟩ = PlanState.done :=
  detect_state_priority.1 ⟨true, false, false, true⟩ rfl

/-- When every attempt fails, the retry loop over attempts `a, …, a+k-1`
(the last being `max_retries`) returns the last error, makes `k`
`on_attempt` calls and sleeps `k - 1` times. -/
theorem retry_loop_count_all_fail {α : Type} (f : Nat → Except String α)
    (es : Nat → String) (hf : ∀ j, f j = Except.error (es j)) (mi : Int) :
    ∀ (k a c s : Nat), 1 ≤ k → ((a + k - 1 : Nat) : Int) = mi →
      retry_loop f count_on_attempt mi (List.range' a k) c s =
        (RetryReturn.failure (es (a + k - 1)), c + k, s + (k - 1)) := by
  intro k
  induction k with
  | zero => intro a c s hk; omega
  | succ k ih =>
    intro a c s _ hm
    rw [List.range'_succ]
    rcases Nat.eq_zero_or_pos k with hk0 | hk1
    · subst hk0
      have hlt : ¬ ((a : Int) < mi) := by omega
      simp [retry_loop, hf a, count_on_attempt, hlt]
    · have hlt : (a : Int) < mi := by omega
      have := ih (a + 1) (c + 1) (s + 1) hk1 (by omega)
      simp only [retry_loop, hf a, count_on_attempt, hlt, if_true, if_pos]
      rw [this]
      have h1 : a + 1 + k - 1 = a + (k + 1) - 1 := by omega
      have h2 : c + 1 + k = c + (k + 1) := by omega
      have h3 : s + 1 + (k - 1) = s + (k + 1 - 1) := by omega
      rw [h1, h2, h3]

/-- The retry loop over a nonempty attempt range ending at `max_retries`
never reaches the implicit `None` return. -/
theorem retry_loop_ne_none {α σ : Type} (f : Nat → Except String α)
    (onAtt : Nat → σ → σ) (mi : Int) :
    ∀ (k a : Nat) (st : σ) (s : Nat), 1 ≤ k → ((a + k - 1 : Nat) : Int) = mi →
      (retry_loop f onAtt mi (List.range' a k) st s).1 ≠
        RetryReturn.none_return := by
  intro k
  induction k with
  | zero => intro a st s hk; omega
  | succ k ih =>
    intro a st s _ hm
    rw [List.range'_succ]
    rcases Nat.eq_zero_or_pos k with hk0 | hk1
    · subst hk0
      have hlt : ¬ ((a : Int) < mi) := by omega
      cases hfa : f a <;> simp [retry_loop, hfa, hlt]
    · have hlt : (a : Int) < mi := by omega
      cases hfa : f a with
      | ok v => simp [retry_loop, hfa]
      | error e =>
        simp only [retry_loop, hfa, hlt, if_true, if_pos]
        exact ih (a + 1) (onAtt a st) (s + 1) hk1 (by omega)

/-- C6: `retry_with_backoff` with `max_retries = 3` and an operation
failing on attempts 1 and 2 and succeeding on attempt 3 returns
`(True, result)` after exactly 3 `on_attempt` calls and 2 inter-attempt
sleeps; and when all `max_retries ≥ 1` attempts fail it returns
`(False, last error message)` without raising (after `max_retries`
`on_attempt` calls and `max_retries - 1` sleeps). -/
theorem retry_with_backoff_spec :
    (∀ (α : Type) (f : Nat → Except String α) (e1 e2 : String) (r : α),
      f 1 = Except.error e1 → f 2 = Except.error e2 → f 3 = Except.ok r →
      retry_with_backoff f 3 count_on_attempt 0 =
        (RetryReturn.success r, 3, 2)) ∧
    (∀ (α : Type) (f : Nat → Except String α) (es : Nat → String) (m : Nat),
      1 ≤ m → (∀ j, f j = Except.error (es j)) →
      retry_with_backoff f (m : Int) count_on_attempt 0 =
        (RetryReturn.failure (es m), m, m - 1)) := by
  constructor
  · intro α f e1 e2 r h1 h2 h3
    unfold retry_with_backoff
    rw [show (3 : Int).toNat = 3 from rfl,
        show List.range' 1 3 = [1, 2, 3] from rfl]
    simp [retry_loop, h1, h2, h3, count_on_attempt]
  · intro α f es m hm hf
    unfold retry_with_backoff
    rw [Int.toNat_natCast m]
    have := retry_loop_count_all_fail f es hf (m : Int) m 1 0 0 hm (by omega)
    rw [this]
    have h1 : 1 + m - 1 = m := by omega
    simp [h1]

/-- Concrete instantiation of `retry_with_backoff_spec`: an operation
failing twice then succeeding with the value 7, and an operation always
failing with message "boom" under `max_retries = 2`. -/
theorem retry_with_backoff_spec_witness :
    retry_with_backoff
        (fun j => if j < 3 then Except.error "boom" else Except.ok 7)
        3 count_on_attempt 0 = (RetryReturn.success 7, 3, 2) ∧
    retry_with_backoff (fun _ => (Except.error "boom" : Except String Nat))
        ((2 : Nat) : Int) count_on_attempt 0 =
      (RetryReturn.failure "boom", 2, 1) :=
  ⟨retry_with_backoff_spec.1 Nat _ "boom" "boom" 7 rfl rfl rfl,
   retry_with_backoff_spec.2 Nat _ (fun _ => "boom") 2 (by omega)
     (fun _ => rfl)⟩

/-- C10: for `max_retries ≥ 1` the retry helper always returns a
`(success, result)` pair, while a zero or negative `max_retries` makes the
attempt loop run zero times, so the function falls off its end and returns
`None` instead of a pair (crashing any caller that unpacks two values). -/
theorem retry_with_backoff_totality :
    (∀ (α σ : Type) (f : Nat → Except String α) (onAtt : Nat → σ → σ)
      (st : σ) (m : Int), 1 ≤ m →
      (retry_with_backoff f m onAtt st).1 ≠ RetryReturn.none_return) ∧
    (∀ (α σ : Type) (f : Nat → Except String α) (onAtt : Nat → σ → σ)
      (st : σ) (m : Int), m ≤ 0 →
      retry_with_backoff f m onAtt st = (RetryReturn.none_return, st, 0)) := by
  constructor
  · intro α σ f onAtt st m hm
    unfold retry_with_backoff
    exact retry_loop_ne_none f onAtt m m.toNat 1 st 0 (by omega) (by omega)
  · intro α σ f onAtt st m hm
    unfold retry_with_backoff
    rw [show m.toNat = 0 by omega, show List.range' 1 0 = [] from rfl]
    rfl

/-- Concrete instantiation of `retry_with_backoff_totality`: with
`max_retries = 1` a pair comes back; with `max_retries = 0` and with
`max_retries = -2` the `None` return is reached. -/
theorem retry_with_backoff_totality_witness :
    (retry_with_backoff (fun _ => Except.ok (0 : Nat)) 1
        count_on_attempt 0).1 ≠ RetryReturn.none_return ∧
    retry_with_backoff (fun _ => Except.ok (0 : Nat)) 0 count_on_attempt 5 =
      (RetryReturn.none_return, 5, 0) ∧
    retry_with_backoff (fun _ => Except.ok (0 : Nat)) (-2) count_on_attempt 5 =
      (RetryReturn.none_return, 5, 0) :=
  ⟨retry_with_backoff_totality.1 Nat Nat _ _ 0 1 (by omega),
   retry_with_backoff_totality.2 Nat Nat _ _ 5 0 (by omega),
   retry_with_backoff_totality.2 Nat Nat _ _ 5 (-2) (by omega)⟩

/-- C7 (code bug): a detected review_ready transition whose planner
invocation succeeds on the first attempt increments `revision_cycles` by
TWO, not one — once in `on_attempt` ("Only count as revision cycle on
first attempt", lisamarge.py line 995) and once more after
`retry_with_backoff` returns success (lisamarge.py line 1029), which also
double-counts `planner_invocations`.  Only the failure exit increments it
exactly once. -/
theorem review_ready_double_count :
    review_ready_branch (fun _ => Except.ok ()) 3 ⟨0, 0⟩ =
      (BranchResult.continue_loop, ⟨2, 2⟩) ∧
    review_ready_branch
        (fun _ => Except.error "kiro-cli failed with exit code 1") 3 ⟨0, 0⟩ =
      (BranchResult.exit_failure, ⟨3, 1⟩) := by
  constructor
  · rfl
  · decide

/-- The duplicate check of `collect_steps`: the step numbers of an
accepted match list are distinct and avoid the already-seen numbers. -/
theorem collect_steps_nodup :
    ∀ (ms : List (Nat × String)) (seen : List Nat) (steps : List Step),
      collect_steps ms seen = Except.ok steps →
      (steps.map Step.step_num).Nodup ∧
        ∀ n ∈ steps.map Step.step_num, n ∉ seen := by
  intro ms
  induction ms with
  | nil =>
    intro seen steps h
    simp only [collect_steps] at h
    cases h
    simp
  | cons p rest ih =>
    obtain ⟨n, block⟩ := p
    intro seen steps h
    simp only [collect_steps] at h
    by_cases hmem : n ∈ seen
    · simp [hmem] at h
    · cases hrec : collect_steps rest (n :: seen) with
      | error e => simp [hmem, hrec] at h
      | ok rest_steps =>
        simp only [hmem, if_false, hrec] at h
        cases h
        obtain ⟨hnd, hni⟩ := ih (n :: seen) rest_steps hrec
        constructor
        · simp only [List.map_cons, List.nodup_cons]
          refine ⟨fun hmm => (hni n hmm) (List.mem_cons_self n seen), hnd⟩
        · intro x hx
          simp only [List.map_cons, List.mem_cons] at hx
          rcases hx with h1 | h2
          · subst h1; exact hmem
          · exact fun hxs => (hni x h2) (List.mem_cons_of_mem _ hxs)

/-- C8: `parse_plan_file` rejects duplicate step numbers as fatal, rejects
non-sequential numbering relative to the number of blocks found reporting
the missing numbers (steps {1,3} → "missing steps [2]"), yields the empty
step list for a plan with no blocks (which the execution workflow then
rejects as having no work to do), and on success returns the steps sorted
ascending by step number — their numbers are exactly 1, …, n — regardless
of appearance order in the plan text. -/
theorem parse_plan_file_spec :
    (parse_plan_file [(2, "a"), (2, "b")] =
      Except.error "Duplicate step number 2 found") ∧
    (parse_plan_file [(1, "a"), (3, "b")] =
      Except.error "Non-sequential step numbers: missing steps [2]") ∧
    (parse_plan_file [] = Except.ok []) ∧
    (execution_steps_check "PLAN_DRAFT_feature.md" [] =
      Except.error "No steps found in PLAN_DRAFT_feature.md") ∧
    (parse_plan_file [(2, "b"), (1, "a"), (3, "c")] =
      Except.ok [{ step_num := 1, description := "a" },
                 { step_num := 2, description := "b" },
                 { step_num := 3, description := "c" }]) ∧
    (∀ (ms : List (Nat × String)) (steps : List Step),
      parse_plan_file ms = Except.ok steps →
      steps.map Step.step_num = List.range' 1 steps.length) := by
  refine ⟨by rfl, by rfl, by rfl, by rfl, by rfl, ?_⟩
  intro ms steps h
  unfold parse_plan_file at h
  cases hcol : collect_steps ms [] with
  | error e => rw [hcol] at h; simp at h
  | ok l =>
    rw [hcol] at h
    dsimp only at h
    by_cases hcond :
        ((List.range' 1 l.length).all
            (fun k => decide (k ∈ l.map Step.step_num)) &&
          (l.map Step.step_num).all
            (fun k => decide (k ∈ List.range' 1 l.length))) = true
    · rw [if_pos hcond] at h
      rw [Except.ok.injEq] at h
      subst h
      rw [Bool.and_eq_true] at hcond
      obtain ⟨hc1, hc2⟩ := hcond
      simp only [List.all_eq_true, decide_eq_true_eq] at hc1 hc2
      obtain ⟨hnd, _⟩ := collect_steps_nodup ms [] l hcol
      have hperm : List.Perm (l.map Step.step_num) (List.range' 1 l.length) :=
        (List.perm_ext_iff_of_nodup hnd (List.nodup_range' 1 l.length)).2
          (fun a => ⟨fun ha => hc2 a ha, fun ha => hc1 a ha⟩)
      have hpsort :
          List.Perm
            (List.insertionSort (fun a b => a.step_num ≤ b.step_num) l) l :=
        List.perm_insertionSort _ l
      have hlen :
          (List.insertionSort (fun a b => a.step_num ≤ b.step_num) l).length
            = l.length := hpsort.length_eq
      have hsorted :
          List.Sorted (· ≤ ·)
            ((List.insertionSort (fun a b => a.step_num ≤ b.step_num) l).map
              Step.step_num) := by
        rw [List.Sorted, List.pairwise_map]
        exact List.sorted_insertionSort (fun a b => a.step_num ≤ b.step_num) l
      have hsortedR :
          List.Sorted (· ≤ ·) (List.range' 1 l.length) :=
        (List.pairwise_lt_range' 1 l.length).imp (fun hab => Nat.le_of_lt hab)
      rw [hlen]
      exact List.eq_of_perm_of_sorted
        ((hpsort.map Step.step_num).trans hperm) hsorted hsortedR
    · rw [if_neg hcond] at h
      simp at h

/-- Concrete instantiation of `parse_plan_file_spec`: the singleton plan
parses to a list whose numbers are exactly the range 1…1. -/
theorem parse_plan_file_spec_witness :
    ([{ step_num := 1, description := ("x" : String) }].map Step.step_num) =
      List.range' 1 1 :=
  parse_plan_file_spec.2.2.2.2.2 [(1, "x")]
    [{ step_num := 1, description := "x" }] (by rfl)

/-- takeWhile ignores the second part of an append once the first part
contains an element breaking the predicate. -/
theorem takeWhile_append_of_break {p : Char → Bool} :
    ∀ (l₁ l₂ : List Char), l₁.all p = false →
      (l₁ ++ l₂).takeWhile p = l₁.takeWhile p := by
  intro l₁
  induction l₁ with
  | nil => intro l₂ h; simp at h
  | cons c l ih =>
    intro l₂ h
    by_cases hc : p c
    · simp only [List.all_cons, hc, Bool.true_and] at h
      simp only [List.cons_append, List.takeWhile_cons, hc, if_true]
      rw [ih l₂ h]
    · simp [List.takeWhile_cons, hc]

/-- The first line of any string starting with "NEEDS REWORK\n\n" is
"NEEDS REWORK". -/
theorem firstLine_append_needs_rework (rest : String) :
    firstLine ("NEEDS REWORK\n\n" ++ rest) = "NEEDS REWORK" := by
  unfold firstLine
  have h : ("NEEDS REWORK\n\n" ++ rest).toList =
      "NEEDS REWORK\n\n".toList ++ rest.toList := by
    simp [String.toList, String.data_append]
  rw [h, takeWhile_append_of_break _ _ (by decide)]
  decide

/-- The first line of the reviewer-timeout fallback artifact is
"NEEDS REWORK", whatever the timeout, plan name and step number. -/
theorem firstLine_reviewer_timeout_feedback (t : Nat) (p : String) (n : Nat) :
    firstLine (reviewer_timeout_feedback t p n) = "NEEDS REWORK" := by
  unfold reviewer_timeout_feedback
  exact firstLine_append_needs_rework _

/-- A step detected as `initial` has neither artifact file. -/
theorem detect_initial_inv (fs : StepFS) :
    detect_step_state fs = StepState.initial →
      fs.review = none ∧ fs.work = none := by
  intro h
  cases hr : fs.review with
  | some c =>
    simp only [detect_step_state, hr] at h
    split_ifs at h
  | none =>
    cases hw : fs.work with
    | some w => simp [detect_step_state, hr, hw] at h
    | none => exact ⟨rfl, rfl⟩

/-- The loop acts on `initial` only when the last completed role is not the
worker and neither artifact file exists. -/
theorem loop_state_initial_inv (s : LoopState) :
    loop_state_of s = StepState.initial →
      s.last_role ≠ some AgentRole.worker ∧
        s.fs.review = none ∧ s.fs.work = none := by
  intro h
  unfold loop_state_of at h
  by_cases hr : s.last_role = some AgentRole.worker
  · simp [hr] at h
  · rw [if_neg hr] at h
    exact ⟨hr, detect_initial_inv s.fs h⟩

/-- The state the loop acts on does not depend on the iteration counter. -/
theorem loop_state_of_iteration (s : LoopState) (k : Nat) :
    loop_state_of { s with iteration := k } = loop_state_of s := rfl

/-- C4: a worker timeout from the `initial` state is not surfaced — the
loop continues with a work artifact embedding the step description, the
worker-invocation counter is one higher, and the step's next detected
state is `work_done` (both by file detection and by the loop's forced
dispatch rule). -/
theorem worker_timeout_from_initial
    (env : Nat → AgentOutcome) (ctx : StepCtx) (s : LoopState)
    (hst : loop_state_of s = StepState.initial)
    (henv : env (s.iteration + 1) = AgentOutcome.timeout) :
    step_iter env ctx s = IterResult.next
      { s with iteration := s.iteration + 1,
               invoke_calls := s.invoke_calls + 1,
               fs := { s.fs with
                       work := some (worker_timeout_feedback ctx.timeout
                         ctx.desc) },
               worker_invocations := s.worker_invocations + 1 } ∧
    strContains (worker_timeout_feedback ctx.timeout ctx.desc) ctx.desc
      = true ∧
    detect_step_state
      { s.fs with
        work := some (worker_timeout_feedback ctx.timeout ctx.desc) } =
      StepState.work_done ∧
    loop_state_of
      { s with iteration := s.iteration + 1,
               invoke_calls := s.invoke_calls + 1,
               fs := { s.fs with
                       work := some (worker_timeout_feedback ctx.timeout
                         ctx.desc) },
               worker_invocations := s.worker_invocations + 1 } =
      StepState.work_done := by
  obtain ⟨hrole, hrev, hwork⟩ := loop_state_initial_inv s hst
  refine ⟨?_, ?_, ?_, ?_⟩
  · simp only [step_iter, loop_state_of_iteration, hst]
    simp [henv]
  · unfold worker_timeout_feedback
    exact strContains_append_right _ _
  · simp [detect_step_state, hrev]
  · simp [loop_state_of, detect_step_state, hrole, hrev]

/-- Concrete instantiation of `worker_timeout_from_initial`: the fallback
work artifact embeds the sample step description. -/
theorem worker_timeout_from_initial_witness :
    strContains (worker_timeout_feedback sample_ctx.timeout sample_ctx.desc)
      sample_ctx.desc = true :=
  (worker_timeout_from_initial (fun _ => AgentOutcome.timeout) sample_ctx
    initial_loop_state (by decide) rfl).2.1

/-- C5 (code evaluated at the failing input): an agent invocation failing
with a non-zero exit code (a `KiroCliError` that is not a timeout) is NOT
retried — the per-step loop re-raises it after exactly one
`invoke_kiro_cli` call, terminating the run with outcome "failure";
`retry_with_backoff` and `--max-retries` play no part in the execution
workflow. -/
theorem worker_process_error_no_retry
    (env : Nat → AgentOutcome) (ctx : StepCtx) (s : LoopState)
    (hst : loop_state_of s = StepState.initial)
    (henv : env (s.iteration + 1) = AgentOutcome.agent_error) :
    step_iter env ctx s = IterResult.raised
      { s with iteration := s.iteration + 1,
               invoke_calls := s.invoke_calls + 1 } := by
  simp only [step_iter, loop_state_of_iteration, hst]
  simp [henv]

/-- Concrete instantiation of `worker_process_error_no_retry`: the first
worker invocation exits non-zero and the loop raises at once. -/
theorem worker_process_error_no_retry_witness :
    step_iter (fun _ => AgentOutcome.agent_error) sample_ctx
        initial_loop_state =
      IterResult.raised
        { initial_loop_state with
            iteration := initial_loop_state.iteration + 1,
            invoke_calls := initial_loop_state.invoke_calls + 1 } :=
  worker_process_error_no_retry (fun _ => AgentOutcome.agent_error)
    sample_ctx initial_loop_state (by decide) rfl

/-- C3 (amended): when the reviewer invocation dispatched from the
`work_done` state reached after a successful worker invocation times out,
the loop continues with a fallback review artifact whose first line is
exactly "NEEDS REWORK" — a state in which `detect_step_state` alone would
report `needs_rework` — but the next iteration again acts on `work_done`
(re-dispatching the reviewer), because the last successfully completed
role is still the worker. -/
theorem reviewer_timeout_after_worker_success
    (env : Nat → AgentOutcome) (ctx : StepCtx) (s : LoopState) (w : String)
    (hrole : s.last_role = some AgentRole.worker)
    (hwork : s.fs.work = some w)
    (henv : env (s.iteration + 1) = AgentOutcome.timeout) :
    step_iter env ctx s = IterResult.next
      { s with iteration := s.iteration + 1,
               invoke_calls := s.invoke_calls + 1,
               fs := { s.fs with
                       review := some (reviewer_timeout_feedback ctx.timeout
                         ctx.plan_name ctx.step_num) },
               reviewer_invocations := s.reviewer_invocations + 1 } ∧
    strBeginsWith
      (firstLine (reviewer_timeout_feedback ctx.timeout ctx.plan_name
        ctx.step_num)) "NEEDS REWORK" = true ∧
    detect_step_state
      { s.fs with
        review := some (reviewer_timeout_feedback ctx.timeout ctx.plan_name
          ctx.step_num) } = StepState.needs_rework ∧
    loop_state_of
      { s with iteration := s.iteration + 1,
               invoke_calls := s.invoke_calls + 1,
               fs := { s.fs with
                       review := some (reviewer_timeout_feedback ctx.timeout
                         ctx.plan_name ctx.step_num) },
               reviewer_invocations := s.reviewer_invocations + 1 } =
      StepState.work_done := by
  have hfl := firstLine_reviewer_timeout_feedback ctx.timeout ctx.plan_name
    ctx.step_num
  have hforced : loop_state_of s = StepState.work_done := by
    simp [loop_state_of, hrole]
  refine ⟨?_, ?_, ?_, ?_⟩
  · simp only [step_iter, loop_state_of_iteration, hforced]
    simp [henv, hwork]
  · rw [hfl]
    decide
  · simp only [detect_step_state, hfl]
    decide
  · simp [loop_state_of, hrole]

/-- Concrete instantiation of `reviewer_timeout_after_worker_success`:
with the fallback review artifact in place, detection alone would report
`needs_rework`. -/
theorem reviewer_timeout_after_worker_success_witness :
    detect_step_state
      { work := some "done",
        review := some (reviewer_timeout_feedback sample_ctx.timeout
          sample_ctx.plan_name sample_ctx.step_num) } =
      StepState.needs_rework :=
  (reviewer_timeout_after_worker_success (fun _ => AgentOutcome.timeout)
    sample_ctx
    { initial_loop_state with
        last_role := some AgentRole.worker,
        fs := { work := some "done", review := none } }
    "done" rfl rfl rfl).2.2.1

/-- C3 (counterexample to the claim as stated): in the concrete run where
the worker succeeds on iteration 1 and the reviewer times out on iteration
2, the fallback review artifact's first line begins with "NEEDS REWORK"
and `detect_step_state` would report `needs_rework`, yet the state the
loop acts on at the next iteration is `work_done`, not `needs_rework` —
the loop does NOT continue into `needs_rework`, so the diagnostic feedback
never reaches a worker invocation. -/
theorem reviewer_timeout_not_needs_rework :
    ((next_state (step_iter reviewer_timeout_env sample_ctx
        initial_loop_state)).bind
      (fun s1 => next_state (step_iter reviewer_timeout_env sample_ctx
        s1))).map
      (fun s2 =>
        (strBeginsWith (firstLine ((s2.fs.review).getD "")) "NEEDS REWORK",
          detect_step_state s2.fs, loop_state_of s2)) =
      some (true, StepState.needs_rework, StepState.work_done) ∧
    StepState.work_done ≠ StepState.needs_rework := by
  exact ⟨by decide, by decide⟩

/-- C9 (counterexample to the claim as stated): the execution workflow's
max-iterations exit writes the tag "max_agent_invocations", and the
planning workflow's stuck exit writes "stuck" — neither belongs to
{success, failure, blocked, max_iterations}. -/
theorem outcome_tag_counterexample :
    execution_outcome ExecTerminal.step_max_invocations =
      "max_agent_invocations" ∧
    "max_agent_invocations" ∉
      (["success", "failure", "blocked", "max_iterations"] : List String) ∧
    planning_outcome PlanTerminal.planner_stuck = "stuck" ∧
    "stuck" ∉
      (["success", "failure", "blocked", "max_iterations"] : List String) :=
  ⟨rfl, by decide, rfl, by decide⟩

/-- C9 (amended): at every terminal exit that writes a summary artifact,
the planning workflow's outcome tag is one of success, stuck, blocked,
failure, max_iterations, and the execution workflow's is one of success,
failure, max_agent_invocations. -/
theorem outcome_tags_amended :
    (∀ t, planning_outcome t ∈
      (["success", "stuck", "blocked", "failure", "max_iterations"] :
        List String)) ∧
    (∀ t, execution_outcome t ∈
      (["success", "failure", "max_agent_invocations"] : List String)) := by
  constructor <;> intro t <;> cases t <;>
    simp [planning_outcome, execution_outcome]

end KiroAgent
